import Mathlib

/-!
Verification of the PageSpeed outreach tool (src/app.py) against its
natural-language specification.

The Python code is shallowly embedded: Python `str` becomes `String`,
Python `int` becomes `ℤ`, optional values become `Option`, JSON raw
fractional scores become `ℚ`, a pandas DataFrame column becomes a named
list of strings, and the per-row try/except around the network call
becomes an explicit `Except` result.  Python string helpers (`strip`,
`lower`, startswith, substring membership) are implemented here as
executable functions over `List Char` so that every definition reduces by
computation.
-/

namespace PageSpeed

/-- Python `str.strip()` whitespace set (ASCII portion): space, tab,
newline, carriage return, vertical tab, form feed. -/
def isPyWhitespace (c : Char) : Bool :=
  c == ' ' || c == '\t' || c == '\n' || c == '\r' || c == '\x0b' || c == '\x0c'

/-- Python `str.strip()`: drop whitespace from both ends. -/
def pyStrip (s : String) : String :=
  String.mk (((s.data.dropWhile isPyWhitespace).reverse.dropWhile isPyWhitespace).reverse)

/-- Python `str.lower()` (ASCII case folding, which covers the literals the
code compares against). -/
def pyLower (s : String) : String :=
  String.mk (s.data.map Char.toLower)

/-- `listStarts pat s` : does `s` begin with `pat` (Python `str.startswith`). -/
def listStarts : List Char → List Char → Bool
  | [], _ => true
  | _ :: _, [] => false
  | p :: ps, c :: cs => p == c && listStarts ps cs

/-- `listContainsSub pat s` : does `pat` occur as a contiguous run in `s`
(Python `pat in s`). -/
def listContainsSub (pat : List Char) : List Char → Bool
  | [] => pat.isEmpty
  | c :: cs => listStarts pat (c :: cs) || listContainsSub pat cs

/-- Python `pat in v` on strings. -/
def strContains (v pat : String) : Bool :=
  listContainsSub pat.data v.data

/-- Python `v.startswith(pat)` on strings. -/
def strStarts (v pat : String) : Bool :=
  listStarts pat.data v.data

/-- `looks_like_url` (src/app.py lines 36-38): strip and lowercase, then
test for an `http://` or `https://` head or a `www.` occurrence. -/
def looks_like_url (v : String) : Bool :=
  let v := pyLower (pyStrip v)
  strStarts v "http://" || strStarts v "https://" || strContains v "www."

/-- `looks_like_linkedin` (src/app.py lines 44-46): strip and lowercase,
then test for a `linkedin.com` occurrence. -/
def looks_like_linkedin (v : String) : Bool :=
  let v := pyLower (pyStrip v)
  strContains v "linkedin.com"

/-- The greeting fallback inside `decision_and_email` (src/app.py lines
134-139): `greet_name = (name or "").strip()`, greeting `"Hi there,"` when
that is empty and `"Hi {greet_name},"` otherwise. -/
def greet_of (name : Option String) : String :=
  let greet_name := pyStrip (name.getD "")
  if greet_name = "" then "Hi there," else "Hi " ++ greet_name ++ ","

/-- Body template for the 0-50 bucket (src/app.py lines 144-153). -/
def body_0_50 (greet : String) : String :=
  greet ++ "\n\nI reviewed your website using Google PageSpeed Insights and noticed that the mobile performance score is extremely low.\nThis negatively affects search visibility, organic traffic, and significantly increases advertising costs if you are running paid campaigns.\n\nWe can fix this within 2–3 days, with an estimated cost of $400–600.\nIf this is interesting for you, just reply to this email.\n\nBest regards,\nRoman Sidorin\nDITS.AGENCY"

/-- Body template for the 51-75 bucket (src/app.py lines 157-166). -/
def body_51_75 (greet : String) : String :=
  greet ++ "\n\nI reviewed your website via Google PageSpeed Insights and noticed that the mobile performance is quite weak.\nThis can negatively impact search visibility, organic traffic, and increase advertising costs when running paid campaigns.\n\nWe can improve this within 2–3 days, with a budget of $400–600.\nIf you’re interested, simply reply to this email.\n\nBest regards,\nRoman Sidorin\nDITS.AGENCY"

/-- Body template for the 76-90 bucket (src/app.py lines 170-179). -/
def body_76_90 (greet : String) : String :=
  greet ++ "\n\nYour website already shows a fairly good mobile performance score.\nHowever, if your goal is to reach 90+, we can help you achieve this.\n\nIn most cases, this takes 2–3 days and costs $400–800.\nIf this sounds interesting, just reply to this email.\n\nBest regards,\nRoman Sidorin\nDITS.AGENCY"

/-- The audit note (src/app.py line 182):
`f"Mobile performance {perf}. Offer depends on bucket {bucket}."` —
note the trailing period in the source f-string. -/
def audit_note_of (perf : ℤ) (bucket : String) : String :=
  "Mobile performance " ++ toString perf ++ ". Offer depends on bucket " ++ bucket ++ "."

/-- `decision_and_email` (src/app.py lines 125-183).  Returns
(action, subject, body, note). -/
def decision_and_email (perf : Option ℤ) (name : Option String) :
    String × String × String × String :=
  match perf with
  | none => ("skip", "", "", "Score not available")
  | some perf =>
    if perf ≥ 91 then
      ("skip", "", "", "Performance is 90+ (no outreach)")
    else
      let greet := greet_of name
      if perf ≤ 50 then
        ("send", "Quick note about your website performance", body_0_50 greet,
          audit_note_of perf "0-50")
      else if 51 ≤ perf ∧ perf ≤ 75 then
        ("send", "Website performance improvement opportunity", body_51_75 greet,
          audit_note_of perf "51-75")
      else
        ("send", "Reaching 90+ PageSpeed score for your website", body_76_90 greet,
          audit_note_of perf "76-90")

/-- C1 (counterexample): the claim says the note is exactly
`"Mobile performance {p}. Offer depends on bucket {bucket_label}"`, and in
particular that `decide(42, None)` yields the note
`"Mobile performance 42. Offer depends on bucket 0-50"`.  The source
f-string (src/app.py line 182) appends a trailing period, so at the
concrete input (42, None) the produced note differs from the claimed one. -/
theorem c1_note_no_period_counterexample :
    (decision_and_email (some 42) none).2.2.2 ≠
      "Mobile performance 42. Offer depends on bucket 0-50" ∧
    (decision_and_email (some 42) none).2.2.2 =
      "Mobile performance 42. Offer depends on bucket 0-50." := by
  constructor <;> decide

/-- C1 (amended): for every present performance score `p` with
`0 ≤ p ≤ 90` and every optional name, `decision_and_email p name` returns
action `send` and a note string equal exactly to
`"Mobile performance {p}. Offer depends on bucket {bucket_label}."` (with a
trailing period), where `bucket_label` is `"0-50"`, `"51-75"`, or `"76-90"`
according to `p`'s bucket. -/
theorem c1_send_note_format (p : ℤ) (name : Option String)
    (h0 : 0 ≤ p) (h90 : p ≤ 90) :
    (decision_and_email (some p) name).1 = "send" ∧
    (decision_and_email (some p) name).2.2.2 =
      "Mobile performance " ++ toString p ++ ". Offer depends on bucket " ++
        (if p ≤ 50 then "0-50" else if p ≤ 75 then "51-75" else "76-90") ++ "." := by
  unfold decision_and_email audit_note_of
  have h91 : ¬ p ≥ 91 := by omega
  simp only [h91, if_false]
  split
  · simp
  · split
    · next h1 h2 =>
      have : ¬ p ≤ 50 := by omega
      simp [this, h2.2]
    · next h1 h2 =>
      have hn50 : ¬ p ≤ 50 := h1
      have hn75 : ¬ p ≤ 75 := by
        intro hc
        exact h2 ⟨by omega, hc⟩
      simp [hn50, hn75]

/-- C1 (witness of the amended claim at p = 42, no name). -/
theorem c1_send_note_format_witness :
    (0 : ℤ) ≤ 42 ∧ (42 : ℤ) ≤ 90 ∧
    ((decision_and_email (some 42) none).1 = "send" ∧
     (decision_and_email (some 42) none).2.2.2 =
       "Mobile performance " ++ toString (42 : ℤ) ++ ". Offer depends on bucket " ++
         (if (42 : ℤ) ≤ 50 then "0-50" else if (42 : ℤ) ≤ 75 then "51-75" else "76-90") ++ ".") :=
  ⟨by decide, by decide, c1_send_note_format 42 none (by decide) (by decide)⟩

/-- C2: an absent score yields exactly `(skip, "", "", "Score not available")`
and a present score `p ≥ 91` yields exactly
`(skip, "", "", "Performance is 90+ (no outreach)")`; in both skip cases the
subject and body are empty. -/
theorem c2_skip_cases (name : Option String) (p : ℤ) (h : 91 ≤ p) :
    decision_and_email none name = ("skip", "", "", "Score not available") ∧
    decision_and_email (some p) name =
      ("skip", "", "", "Performance is 90+ (no outreach)") := by
  constructor
  · rfl
  · unfold decision_and_email
    have : p ≥ 91 := h
    simp [this]

/-- C2 (witness at p = 95, no name). -/
theorem c2_skip_cases_witness :
    (91 : ℤ) ≤ 95 ∧
    (decision_and_email none none = ("skip", "", "", "Score not available") ∧
     decision_and_email (some 95) none =
       ("skip", "", "", "Performance is 90+ (no outreach)")) :=
  ⟨by decide, c2_skip_cases none 95 (by decide)⟩

/-- C3: over the declared integer domain `0 ≤ p ≤ 100`, the four decision
outcomes are exhaustive and non-overlapping: the 90+-skip outcome occurs
exactly when `91 ≤ p`, and each of the three send outcomes (identified by
its fixed subject line) occurs exactly on its closed bucket range
`[0,50]`, `[51,75]`, `[76,90]`.  Since the four ranges partition `[0,100]`,
every such `p` is matched by exactly one outcome. -/
theorem c3_buckets_partition (p : ℤ) (h0 : 0 ≤ p) (h100 : p ≤ 100)
    (name : Option String) :
    (decision_and_email (some p) name =
        ("skip", "", "", "Performance is 90+ (no outreach)") ↔ 91 ≤ p) ∧
    ((decision_and_email (some p) name).1 = "send" ∧
      (decision_and_email (some p) name).2.1 =
        "Quick note about your website performance" ↔ 0 ≤ p ∧ p ≤ 50) ∧
    ((decision_and_email (some p) name).1 = "send" ∧
      (decision_and_email (some p) name).2.1 =
        "Website performance improvement opportunity" ↔ 51 ≤ p ∧ p ≤ 75) ∧
    ((decision_and_email (some p) name).1 = "send" ∧
      (decision_and_email (some p) name).2.1 =
        "Reaching 90+ PageSpeed score for your website" ↔ 76 ≤ p ∧ p ≤ 90) := by
  simp only [decision_and_email]
  by_cases h91 : p ≥ 91
  · rw [if_pos h91]
    refine ⟨iff_of_true rfl h91, ?_, ?_, ?_⟩ <;>
      exact iff_of_false (fun hc => absurd hc.1 (by decide)) (by omega)
  · rw [if_neg h91]
    by_cases h50 : p ≤ 50
    · rw [if_pos h50]
      refine ⟨?_, ?_, ?_, ?_⟩
      · exact iff_of_false (fun hc => by simp at hc) (by omega)
      · exact iff_of_true ⟨rfl, rfl⟩ ⟨h0, h50⟩
      · exact iff_of_false (fun hc => by simp at hc) (by omega)
      · exact iff_of_false (fun hc => by simp at hc) (by omega)
    · rw [if_neg h50]
      by_cases h75 : 51 ≤ p ∧ p ≤ 75
      · rw [if_pos h75]
        refine ⟨?_, ?_, ?_, ?_⟩
        · exact iff_of_false (fun hc => by simp at hc) (by omega)
        · exact iff_of_false (fun hc => by simp at hc) (by omega)
        · exact iff_of_true ⟨rfl, rfl⟩ h75
        · exact iff_of_false (fun hc => by simp at hc) (by omega)
      · rw [if_neg h75]
        refine ⟨?_, ?_, ?_, ?_⟩
        · exact iff_of_false (fun hc => by simp at hc) (by omega)
        · exact iff_of_false (fun hc => by simp at hc) (by omega)
        · exact iff_of_false (fun hc => by simp at hc) (by omega)
        · exact iff_of_true ⟨rfl, rfl⟩ (by omega)

/-- C3 (witness at p = 42, no name). -/
theorem c3_buckets_partition_witness :
    (0 : ℤ) ≤ 42 ∧ (42 : ℤ) ≤ 100 ∧
    ((decision_and_email (some 42) none =
        ("skip", "", "", "Performance is 90+ (no outreach)") ↔ 91 ≤ (42 : ℤ)) ∧
     ((decision_and_email (some 42) none).1 = "send" ∧
       (decision_and_email (some 42) none).2.1 =
         "Quick note about your website performance" ↔ 0 ≤ (42 : ℤ) ∧ (42 : ℤ) ≤ 50) ∧
     ((decision_and_email (some 42) none).1 = "send" ∧
       (decision_and_email (some 42) none).2.1 =
         "Website performance improvement opportunity" ↔ 51 ≤ (42 : ℤ) ∧ (42 : ℤ) ≤ 75) ∧
     ((decision_and_email (some 42) none).1 = "send" ∧
       (decision_and_email (some 42) none).2.1 =
         "Reaching 90+ PageSpeed score for your website" ↔ 76 ≤ (42 : ℤ) ∧ (42 : ℤ) ≤ 90)) :=
  ⟨by decide, by decide, c3_buckets_partition 42 (by decide) (by decide) none⟩

/-- Python 3 `round()` on an exact value: round half to even (banker's
rounding).  The raw JSON fractional scores are modelled as rationals. -/
def roundHalfEven (q : ℚ) : ℤ :=
  if q - ⌊q⌋ < 1/2 then ⌊q⌋
  else if 1/2 < q - ⌊q⌋ then ⌊q⌋ + 1
  else if ⌊q⌋ % 2 = 0 then ⌊q⌋ else ⌊q⌋ + 1

/-- The score normalization inside `get_pagespeed` (src/app.py lines
114-116): `None if v is None else int(round(v * 100))`. -/
def score (v : Option ℚ) : Option ℤ :=
  match v with
  | none => none
  | some v => some (roundHalfEven (v * 100))

/-- A `ScoreSet` as produced by `get_pagespeed` (src/app.py lines 118-123):
the four category scores, each an integer or absent. -/
structure ScoreSet where
  mobile_performance : Option ℤ
  accessibility : Option ℤ
  best_practices : Option ℤ
  seo : Option ℤ
deriving DecidableEq

/-- The pure tail of `get_pagespeed` (src/app.py lines 101-123): the HTTP
call and JSON traversal are abstracted into the four optional raw category
fractions the service reported (`cats.get(key, {}).get("score", None)`);
each is normalized by `score`. -/
def get_pagespeed (perf acc bp seo : Option ℚ) : ScoreSet :=
  { mobile_performance := score perf
    accessibility := score acc
    best_practices := score bp
    seo := score seo }

lemma roundHalfEven_near (q : ℚ) : |(roundHalfEven q : ℚ) - q| ≤ 1/2 := by
  unfold roundHalfEven
  have hfl : (⌊q⌋ : ℚ) ≤ q := Int.floor_le q
  have hfu : q < ⌊q⌋ + 1 := Int.lt_floor_add_one q
  split
  · next h => rw [abs_sub_comm]; rw [abs_of_nonneg (by linarith)]; linarith
  · next h =>
    split
    · next h2 => push_cast; rw [abs_of_nonneg (by linarith)]; linarith
    · next h2 =>
      have : q - ⌊q⌋ = 1/2 := by linarith
      split
      · rw [abs_sub_comm, abs_of_nonneg (by linarith)]; linarith
      · push_cast; rw [abs_of_nonneg (by linarith)]; linarith

/-- C6: for each of the four category scores produced by `get_pagespeed`,
a present raw fractional value `v ∈ [0,1]` is normalized to an integer
within 1/2 of `v * 100` (i.e. `v * 100` rounded to the nearest integer,
ties resolved to even as Python 3's `round` does), and a missing raw value
yields an absent score, never zero. -/
theorem c6_score_normalization (perf acc bp seo : Option ℚ) :
    (get_pagespeed perf acc bp seo).mobile_performance = score perf ∧
    (get_pagespeed perf acc bp seo).accessibility = score acc ∧
    (get_pagespeed perf acc bp seo).best_practices = score bp ∧
    (get_pagespeed perf acc bp seo).seo = score seo ∧
    score none = none ∧
    ∀ v : ℚ, 0 ≤ v → v ≤ 1 →
      ∃ n : ℤ, score (some v) = some n ∧ |(n : ℚ) - v * 100| ≤ 1/2 := by
  refine ⟨rfl, rfl, rfl, rfl, rfl, ?_⟩
  intro v _ _
  exact ⟨roundHalfEven (v * 100), rfl, roundHalfEven_near (v * 100)⟩

/-- C6 (witness at raw value 0.42: the normalized performance score is 42). -/
theorem c6_score_normalization_witness :
    (0 : ℚ) ≤ 42/100 ∧ (42/100 : ℚ) ≤ 1 ∧
    (∃ n : ℤ, score (some (42/100 : ℚ)) = some n ∧
      |(n : ℚ) - (42/100) * 100| ≤ 1/2) ∧
    score (some (42/100 : ℚ)) = some 42 :=
  ⟨by norm_num,
   by norm_num,
   ((c6_score_normalization (some (42/100)) none none none).2.2.2.2.2
     (42/100) (by norm_num) (by norm_num)),
   by
     have h42 : (42/100 * 100 : ℚ) = 42 := by norm_num
     have hf : ⌊(42 : ℚ)⌋ = 42 := by norm_num
     simp [score, roundHalfEven, h42, hf]⟩

/-- C10 (implicit): in `decision_and_email`, a name that is empty or
whitespace-only is treated the same as an absent name — the greeting is
`"Hi there,"`, so for every in-range score the produced tuple (body
included) is identical to the absent-name one; a non-blank name yields the
greeting `"Hi {name},"` with the name whitespace-stripped. -/
theorem c10_blank_name_like_absent (p : ℤ) (name : String)
    (h0 : 0 ≤ p) (h90 : p ≤ 90) :
    (pyStrip name = "" →
      decision_and_email (some p) (some name) = decision_and_email (some p) none) ∧
    (pyStrip name ≠ "" → greet_of (some name) = "Hi " ++ pyStrip name ++ ",") := by
  constructor
  · intro h
    have hg : greet_of (some name) = greet_of none := by
      have h2 : pyStrip "" = "" := by decide
      simp [greet_of, h, h2]
    simp only [decision_and_email, hg]
  · intro h
    simp [greet_of, h]

/-- C10 (witness at p = 42 with the whitespace-only name "   " and the
padded name " Ada "). -/
theorem c10_blank_name_like_absent_witness :
    (0 : ℤ) ≤ 42 ∧ (42 : ℤ) ≤ 90 ∧
    pyStrip "   " = "" ∧
    decision_and_email (some 42) (some "   ") = decision_and_email (some 42) none ∧
    pyStrip " Ada " ≠ "" ∧
    greet_of (some " Ada ") = "Hi " ++ pyStrip " Ada " ++ "," :=
  ⟨by decide, by decide, by decide,
   (c10_blank_name_like_absent 42 "   " (by decide) (by decide)).1 (by decide),
   by decide,
   (c10_blank_name_like_absent 42 " Ada " (by decide) (by decide)).2 (by decide)⟩

/-- A DataFrame column for the content-sniffing fallback of
`auto_map_columns`: its original name and its values as strings. -/
structure Column where
  name : String
  values : List String
deriving DecidableEq

/-- `sample = df.head(30)` then
`score = sum(1 for v in vals if looks_like_url(v))`
(src/app.py lines 63, 70-71). -/
def url_score (c : Column) : ℕ :=
  (c.values.take 30).countP looks_like_url

/-- One iteration of the website-fallback loop (src/app.py lines 69-74):
keep the accumulator unless this column's score strictly exceeds the best
score so far. -/
def website_step (acc : Option String × ℕ) (c : Column) : Option String × ℕ :=
  if url_score c > acc.2 then (some c.name, url_score c) else acc

/-- The website content-sniffing fallback of `auto_map_columns`
(src/app.py lines 66-76), run when no header synonym matched: fold the
loop over the columns starting from `(best_col, best_score) = (None, 0)`,
then select the best column only when `best_score >= 3`. -/
def website_fallback (cols : List Column) : Option String :=
  let best := cols.foldl website_step (none, 0)
  if best.2 ≥ 3 then best.1 else none

/-- `sample = df.head(30)` then the count of `looks_like_linkedin` values
(src/app.py lines 63, 94-95). -/
def linkedin_score (c : Column) : ℕ :=
  (c.values.take 30).countP looks_like_linkedin

/-- The linkedin content-sniffing fallback of `auto_map_columns`
(src/app.py lines 92-97), run when no header synonym matched: take the
first column with at least 2 linkedin-looking sampled values (the loop
breaks at the first hit). -/
def linkedin_fallback : List Column → Option String
  | [] => none
  | c :: rest =>
    if 2 ≤ linkedin_score c then some c.name else linkedin_fallback rest

lemma website_foldl_spec (cols : List Column) (acc : Option String × ℕ) :
    (cols.foldl website_step acc = acc ∧ ∀ c ∈ cols, url_score c ≤ acc.2) ∨
    (∃ c ∈ cols, cols.foldl website_step acc = (some c.name, url_score c) ∧
      acc.2 < url_score c ∧ ∀ c' ∈ cols, url_score c' ≤ url_score c) := by
  induction cols generalizing acc with
  | nil => exact Or.inl ⟨rfl, by simp⟩
  | cons c cs ih =>
    rw [List.foldl_cons]
    by_cases h : url_score c > acc.2
    · have hstep : website_step acc c = (some c.name, url_score c) := by
        simp [website_step, h]
      rw [hstep]
      rcases ih (some c.name, url_score c) with ⟨heq, hall⟩ | ⟨c2, hmem, heq, hlt, hall⟩
      · refine Or.inr ⟨c, List.mem_cons_self c cs, heq, h, ?_⟩
        intro c' hc'
        rcases List.mem_cons.mp hc' with rfl | hc'
        · exact le_refl _
        · exact hall c' hc'
      · refine Or.inr ⟨c2, List.mem_cons_of_mem c hmem, heq, lt_trans h hlt, ?_⟩
        intro c' hc'
        rcases List.mem_cons.mp hc' with rfl | hc'
        · exact le_of_lt hlt
        · exact hall c' hc'
    · have hstep : website_step acc c = acc := by
        simp [website_step, h]
      rw [hstep]
      rcases ih acc with ⟨heq, hall⟩ | ⟨c2, hmem, heq, hlt, hall⟩
      · refine Or.inl ⟨heq, ?_⟩
        intro c' hc'
        rcases List.mem_cons.mp hc' with rfl | hc'
        · exact le_of_not_lt h
        · exact hall c' hc'
      · refine Or.inr ⟨c2, List.mem_cons_of_mem c hmem, heq, hlt, ?_⟩
        intro c' hc'
        rcases List.mem_cons.mp hc' with rfl | hc'
        · exact le_trans (le_of_not_lt h) (le_of_lt hlt)
        · exact hall c' hc'

/-- C4: in the website content-sniffing fallback, each column is scored by
counting URL-looking values among the first 30 sampled rows; a column is
selected only if it attains the maximum count over all columns and that
count is at least 3 (so a column with exactly 2 URL-like sampled values is
never auto-selected), and conversely whenever some column has count at
least 3 a column is selected. -/
theorem c4_website_threshold (cols : List Column) :
    (∀ cn, website_fallback cols = some cn →
      ∃ c ∈ cols, c.name = cn ∧ 3 ≤ url_score c ∧
        ∀ c' ∈ cols, url_score c' ≤ url_score c) ∧
    ((∃ c ∈ cols, 3 ≤ url_score c) →
      ∃ cn, website_fallback cols = some cn) := by
  constructor
  · intro cn hsel
    unfold website_fallback at hsel
    rcases website_foldl_spec cols (none, 0) with ⟨heq, _⟩ | ⟨c, hmem, heq, _, hall⟩
    · rw [heq] at hsel
      by_cases h3 : (none (α := String), 0).2 ≥ 3
      · rw [if_pos h3] at hsel; exact absurd hsel (by simp)
      · rw [if_neg h3] at hsel; exact absurd hsel (by simp)
    · rw [heq] at hsel
      by_cases h3 : ((some c.name, url_score c)).2 ≥ 3
      · rw [if_pos h3] at hsel
        simp only [Option.some.injEq] at hsel
        exact ⟨c, hmem, hsel, h3, hall⟩
      · rw [if_neg h3] at hsel; exact absurd hsel (by simp)
  · rintro ⟨c, hmem, h3⟩
    unfold website_fallback
    rcases website_foldl_spec cols (none, 0) with ⟨heq, hall⟩ | ⟨c2, _, heq, _, hall⟩
    · exact absurd (hall c hmem) (by omega)
    · rw [heq]
      have : ((some c2.name, url_score c2)).2 ≥ 3 := le_trans h3 (hall c hmem)
      rw [if_pos this]
      exact ⟨c2.name, rfl⟩

/-- C4 (witness): a column with exactly 2 URL-like sampled values next to
one with 3 — the selection exists and lands on the 3-scoring column. -/
theorem c4_website_threshold_witness :
    (∃ c ∈ [Column.mk "a" ["http://x", "www.y", "plain"],
            Column.mk "b" ["http://1", "www.2", "https://3"]], 3 ≤ url_score c) ∧
    (∃ cn, website_fallback
        [Column.mk "a" ["http://x", "www.y", "plain"],
         Column.mk "b" ["http://1", "www.2", "https://3"]] = some cn) ∧
    url_score (Column.mk "a" ["http://x", "www.y", "plain"]) = 2 ∧
    website_fallback
        [Column.mk "a" ["http://x", "www.y", "plain"],
         Column.mk "b" ["http://1", "www.2", "https://3"]] = some "b" :=
  ⟨by decide,
   (c4_website_threshold _).2 (by decide),
   by decide, by decide⟩

/-- C5: the linkedin content-sniffing fallback returns the first column
(in table column order) whose first-30-rows sample has at least 2 values
containing "linkedin.com" — characterized exactly by `List.find?` — and in
particular a qualifying head column wins no matter what comes later, so no
best-scoring comparison across columns takes place. -/
theorem c5_linkedin_first_qualifying :
    (∀ cols : List Column,
      linkedin_fallback cols =
        (cols.find? fun c => decide (2 ≤ linkedin_score c)).map Column.name) ∧
    (∀ (c : Column) (rest : List Column), 2 ≤ linkedin_score c →
      linkedin_fallback (c :: rest) = some c.name) := by
  constructor
  · intro cols
    induction cols with
    | nil => rfl
    | cons c cs ih =>
      by_cases h : 2 ≤ linkedin_score c
      · simp [linkedin_fallback, List.find?_cons, h]
      · simp [linkedin_fallback, List.find?_cons, h, ih]
  · intro c rest h
    simp [linkedin_fallback, h]

/-- C5 (witness): the head column has exactly 2 linkedin matches and the
later column has 3, yet the head column wins. -/
theorem c5_linkedin_first_qualifying_witness :
    2 ≤ linkedin_score (Column.mk "p" ["linkedin.com/a", "linkedin.com/b", "z"]) ∧
    linkedin_score (Column.mk "q"
      ["linkedin.com/1", "linkedin.com/2", "linkedin.com/3"]) = 3 ∧
    linkedin_fallback
      [Column.mk "p" ["linkedin.com/a", "linkedin.com/b", "z"],
       Column.mk "q" ["linkedin.com/1", "linkedin.com/2", "linkedin.com/3"]] =
      some "p" :=
  ⟨by decide, by decide,
   c5_linkedin_first_qualifying.2
     (Column.mk "p" ["linkedin.com/a", "linkedin.com/b", "z"])
     [Column.mk "q" ["linkedin.com/1", "linkedin.com/2", "linkedin.com/3"]]
     (by decide)⟩

/-- One normalized input row of the canonical DataFrame built before the
run loop (src/app.py lines 233-241): the five canonical fields as
strings. -/
structure Row where
  website : String
  email : String
  name : String
  company : String
  linkedin : String
deriving DecidableEq

/-- `str(e)[:300]` (src/app.py line 267): truncate an error message to at
most 300 characters. -/
def truncate300 (s : String) : String :=
  String.mk (s.data.take 300)

/-- One `ResultRecord`: the dict appended per row (src/app.py lines
269-282), fields in source order.  The wall-clock `timestamp_utc` field is
outside the embedding and omitted. -/
structure ResultRecord where
  website : String
  email : String
  name : String
  company : String
  linkedin : String
  mobile_performance : Option ℤ
  accessibility : Option ℤ
  best_practices : Option ℤ
  seo : Option ℤ
  decision : String
  email_subject : String
  email_body : String
  audit_note : String
  error : String
deriving DecidableEq

/-- One iteration of the run-analysis loop (src/app.py lines 252-282).
The network call is abstracted as `fetch : url → Except message ScoreSet`;
`Except.error` is the raised exception of the `try`/`except` block, whose
handler records absent scores, a skip decision, the note
"Error during analysis" and the truncated message. -/
def processRow (fetch : String → Except String ScoreSet) (row : Row) :
    ResultRecord :=
  let url := pyStrip row.website
  let name_val := if pyStrip row.name = "" then none else some (pyStrip row.name)
  match fetch url with
  | .ok scores =>
    let d := decision_and_email scores.mobile_performance name_val
    { website := url, email := row.email, name := row.name,
      company := row.company, linkedin := row.linkedin,
      mobile_performance := scores.mobile_performance,
      accessibility := scores.accessibility,
      best_practices := scores.best_practices, seo := scores.seo,
      decision := d.1, email_subject := d.2.1, email_body := d.2.2.1,
      audit_note := d.2.2.2, error := "" }
  | .error e =>
    { website := url, email := row.email, name := row.name,
      company := row.company, linkedin := row.linkedin,
      mobile_performance := none, accessibility := none,
      best_practices := none, seo := none,
      decision := "skip", email_subject := "", email_body := "",
      audit_note := "Error during analysis", error := truncate300 e }

/-- The run-analysis loop over all rows (src/app.py lines 252-282):
`results` accumulates one record per row, in input order. -/
def runBatch (fetch : String → Except String ScoreSet) (rows : List Row) :
    List ResultRecord :=
  rows.map (processRow fetch)

/-- C7: when scoring a row raises (fetch returns an error `e`), that row's
record has all four scores absent, a skip decision with empty subject and
body, the note "Error during analysis" and an error string equal to `e`
truncated to at most 300 characters; the failure is locally contained —
the batch still processes the rows before and after it. -/
theorem c7_error_row_recovery (fetch : String → Except String ScoreSet)
    (row : Row) (e : String) (h : fetch (pyStrip row.website) = .error e) :
    (processRow fetch row).mobile_performance = none ∧
    (processRow fetch row).accessibility = none ∧
    (processRow fetch row).best_practices = none ∧
    (processRow fetch row).seo = none ∧
    (processRow fetch row).decision = "skip" ∧
    (processRow fetch row).email_subject = "" ∧
    (processRow fetch row).email_body = "" ∧
    (processRow fetch row).audit_note = "Error during analysis" ∧
    (processRow fetch row).error = truncate300 e ∧
    (processRow fetch row).error.length ≤ 300 ∧
    ∀ before after : List Row,
      runBatch fetch (before ++ row :: after) =
        runBatch fetch before ++ processRow fetch row :: runBatch fetch after := by
  have hrec : processRow fetch row =
      { website := pyStrip row.website, email := row.email, name := row.name,
        company := row.company, linkedin := row.linkedin,
        mobile_performance := none, accessibility := none,
        best_practices := none, seo := none,
        decision := "skip", email_subject := "", email_body := "",
        audit_note := "Error during analysis", error := truncate300 e } := by
    simp only [processRow, h]
  have hlen : (truncate300 e).length ≤ 300 := by
    unfold truncate300
    show (e.data.take 300).length ≤ 300
    rw [List.length_take]
    exact min_le_left _ _
  rw [hrec]
  refine ⟨rfl, rfl, rfl, rfl, rfl, rfl, rfl, rfl, rfl, hlen, ?_⟩
  intro before after
  unfold runBatch
  rw [List.map_append, List.map_cons, hrec]

/-- C7 (witness): a concrete always-failing fetch on a one-error batch,
with neighbours still processed. -/
theorem c7_error_row_recovery_witness :
    (fun _ : String => (Except.error "boom" : Except String ScoreSet))
        (pyStrip "http://x.com") = Except.error "boom" ∧
    ((processRow (fun _ => Except.error "boom")
        (Row.mk "http://x.com" "e@x" "Ada" "X" "")).mobile_performance = none ∧
     (processRow (fun _ => Except.error "boom")
        (Row.mk "http://x.com" "e@x" "Ada" "X" "")).accessibility = none ∧
     (processRow (fun _ => Except.error "boom")
        (Row.mk "http://x.com" "e@x" "Ada" "X" "")).best_practices = none ∧
     (processRow (fun _ => Except.error "boom")
        (Row.mk "http://x.com" "e@x" "Ada" "X" "")).seo = none ∧
     (processRow (fun _ => Except.error "boom")
        (Row.mk "http://x.com" "e@x" "Ada" "X" "")).decision = "skip" ∧
     (processRow (fun _ => Except.error "boom")
        (Row.mk "http://x.com" "e@x" "Ada" "X" "")).email_subject = "" ∧
     (processRow (fun _ => Except.error "boom")
        (Row.mk "http://x.com" "e@x" "Ada" "X" "")).email_body = "" ∧
     (processRow (fun _ => Except.error "boom")
        (Row.mk "http://x.com" "e@x" "Ada" "X" "")).audit_note =
          "Error during analysis" ∧
     (processRow (fun _ => Except.error "boom")
        (Row.mk "http://x.com" "e@x" "Ada" "X" "")).error = truncate300 "boom" ∧
     (processRow (fun _ => Except.error "boom")
        (Row.mk "http://x.com" "e@x" "Ada" "X" "")).error.length ≤ 300 ∧
     ∀ before after : List Row,
       runBatch (fun _ => Except.error "boom")
           (before ++ Row.mk "http://x.com" "e@x" "Ada" "X" "" :: after) =
         runBatch (fun _ => Except.error "boom") before ++
           processRow (fun _ => Except.error "boom")
             (Row.mk "http://x.com" "e@x" "Ada" "X" "") ::
           runBatch (fun _ => Except.error "boom") after) :=
  ⟨rfl, c7_error_row_recovery (fun _ => Except.error "boom")
    (Row.mk "http://x.com" "e@x" "Ada" "X" "") "boom" rfl⟩

/-- C8: the batch runner yields exactly one ResultRecord per input row, on
the success and error paths alike, and in the original input order: the
output has the same length as the input and its i-th entry is the
processed i-th input row. -/
theorem c8_one_record_per_row_in_order
    (fetch : String → Except String ScoreSet) (rows : List Row) :
    (runBatch fetch rows).length = rows.length ∧
    ∀ i : ℕ, (runBatch fetch rows)[i]? = (rows[i]?).map (processRow fetch) := by
  constructor
  · exact List.length_map rows (processRow fetch)
  · intro i
    exact List.getElem?_map (processRow fetch) rows i

/-- The outreach-import DataFrame `snov_out` (src/app.py lines 301-311):
nine named columns, declared in the fixed source order
email, first_name, company, website, linkedin, mobile_performance,
email_subject, email_body, audit_note. -/
structure SnovOut where
  email : List String
  first_name : List String
  company : List String
  website : List String
  linkedin : List String
  mobile_performance : List (Option ℤ)
  email_subject : List String
  email_body : List String
  audit_note : List String
deriving DecidableEq

/-- Building the outreach-import export (src/app.py lines 299-311):
`snov = res[res["decision"] == "send"]`, then each output column is the
corresponding column of the filtered frame, with `first_name` taken from
`name`. -/
def snov_out (res : List ResultRecord) : SnovOut :=
  let snov := res.filter fun r => r.decision == "send"
  { email := snov.map ResultRecord.email
    first_name := snov.map ResultRecord.name
    company := snov.map ResultRecord.company
    website := snov.map ResultRecord.website
    linkedin := snov.map ResultRecord.linkedin
    mobile_performance := snov.map ResultRecord.mobile_performance
    email_subject := snov.map ResultRecord.email_subject
    email_body := snov.map ResultRecord.email_body
    audit_note := snov.map ResultRecord.audit_note }

/-- C9: the outreach-import export contains exactly the ResultRecords
whose action is send, in their original order, projected to the columns
email, first_name (taken from name), company, website, linkedin,
mobile_performance, email_subject, email_body, audit_note — each output
column is the corresponding field read off the send-filtered record list —
and when no record has action send every column of the export is empty
(the file carries only its header). -/
theorem c9_snov_export (res : List ResultRecord) :
    (snov_out res).email =
      (res.filter fun r => r.decision == "send").map ResultRecord.email ∧
    (snov_out res).first_name =
      (res.filter fun r => r.decision == "send").map ResultRecord.name ∧
    (snov_out res).company =
      (res.filter fun r => r.decision == "send").map ResultRecord.company ∧
    (snov_out res).website =
      (res.filter fun r => r.decision == "send").map ResultRecord.website ∧
    (snov_out res).linkedin =
      (res.filter fun r => r.decision == "send").map ResultRecord.linkedin ∧
    (snov_out res).mobile_performance =
      (res.filter fun r => r.decision == "send").map
        ResultRecord.mobile_performance ∧
    (snov_out res).email_subject =
      (res.filter fun r => r.decision == "send").map ResultRecord.email_subject ∧
    (snov_out res).email_body =
      (res.filter fun r => r.decision == "send").map ResultRecord.email_body ∧
    (snov_out res).audit_note =
      (res.filter fun r => r.decision == "send").map ResultRecord.audit_note ∧
    ((∀ r ∈ res, r.decision ≠ "send") →
      snov_out res = SnovOut.mk [] [] [] [] [] [] [] [] []) := by
  refine ⟨rfl, rfl, rfl, rfl, rfl, rfl, rfl, rfl, rfl, ?_⟩
  intro hnone
  have hfil : (res.filter fun r => r.decision == "send") = [] := by
    rw [List.filter_eq_nil_iff]
    intro r hr
    simpa using hnone r hr
  simp [snov_out, hfil]

/-- C9 (witness): a batch holding a single skip record exports zero data
rows. -/
theorem c9_snov_export_witness :
    (∀ r ∈ [ResultRecord.mk "w" "e" "n" "c" "l" none none none none
              "skip" "" "" "Score not available" ""], r.decision ≠ "send") ∧
    snov_out [ResultRecord.mk "w" "e" "n" "c" "l" none none none none
                "skip" "" "" "Score not available" ""] =
      SnovOut.mk [] [] [] [] [] [] [] [] [] :=
  ⟨by decide,
   (c9_snov_export [ResultRecord.mk "w" "e" "n" "c" "l" none none none none
      "skip" "" "" "Score not available" ""]).2.2.2.2.2.2.2.2.2 (by decide)⟩

end PageSpeed
